import Mathlib

/-!
Shallow embedding of the core of `arping.c` (iputils arping): the packet
codec (`send_pack` / `recv_pack`), the probe-session state, the finisher,
the interface-flag check and the event loop's state transitions.

Machine integers are modelled as `Nat` / `Int`; byte buffers as `List Nat`
(one element per byte); multi-byte header fields are read and written in
network byte order exactly as the C code's `htons` comparisons do.
-/

namespace Arping

/-! ### Constants from the C headers used by arping.c -/

def FINAL_PACKS : Nat := 2

def PACKET_HOST : Nat := 0
def PACKET_BROADCAST : Nat := 1
def PACKET_MULTICAST : Nat := 2

def ARPOP_REQUEST : Nat := 1
def ARPOP_REPLY : Nat := 2

def ARPHRD_ETHER : Nat := 1
def ARPHRD_FDDI : Nat := 774

def ETH_P_IP : Nat := 0x0800

def IFF_UP : Nat := 0x1
def IFF_LOOPBACK : Nat := 0x8
def IFF_NOARP : Nat := 0x80

/-! ### Data model -/

/-- The fields of `struct sockaddr_ll` that arping.c reads or writes:
packet class, link-layer (hardware) type, hardware-address length and the
hardware address bytes.  `sll_halen` is an 8-bit field in C. -/
structure sockaddr_ll where
  sll_pkttype : Nat
  sll_hatype : Nat
  sll_halen : Nat
  sll_addr : List Nat
deriving Repr, DecidableEq

/-- The fields of `struct run_state` that the probe session, codec and
event loop use.  IPv4 addresses (`struct in_addr`) are kept as their four
memory bytes, so `s_addr` equality is list equality and `s_addr != 0` is
"not all four bytes zero".  Counters only ever start at 0 and increment,
so they are `Nat`; `count` and `timeout` come from `atoi` and are `Int`. -/
structure run_state where
  count : Int
  timeout : Int
  me : sockaddr_ll
  he : sockaddr_ll
  gsrc : List Nat
  gdst : List Nat
  sent : Nat
  brd_sent : Nat
  received : Nat
  brd_recv : Nat
  req_recv : Nat
  advert : Bool
  broadcast_only : Bool
  dad : Bool
  quiet : Bool
  quit_on_reply : Bool
  unicasting : Bool
  unsolicited : Bool
deriving Repr, DecidableEq

/-! ### Byte-level helpers (network byte order) -/

/-- Serialize a 16-bit value as two bytes in network (big-endian) order,
as `htons` stores it in the wire buffer. -/
def be16 (x : Nat) : List Nat := [x / 256 % 256, x % 256]

/-- Read the 16-bit big-endian value at offset `i` of a byte buffer; this
is the value a C `uint16_t` load compared against `htons(c)` represents. -/
def read_be16 (buf : List Nat) (i : Nat) : Nat :=
  buf.getD i 0 * 256 + buf.getD (i + 1) 0

/-- `ah->ar_hrd` of the frame (network order, compared against `htons`). -/
def ar_hrd (buf : List Nat) : Nat := read_be16 buf 0

/-- `ah->ar_pro` of the frame. -/
def ar_pro (buf : List Nat) : Nat := read_be16 buf 2

/-- `ah->ar_hln` of the frame (single byte). -/
def ar_hln (buf : List Nat) : Nat := buf.getD 4 0

/-- `ah->ar_pln` of the frame (single byte). -/
def ar_pln (buf : List Nat) : Nat := buf.getD 5 0

/-- `ah->ar_op` of the frame. -/
def ar_op (buf : List Nat) : Nat := read_be16 buf 6

/-- `sizeof(struct arphdr)`: 2+2+1+1+2 bytes. -/
def arphdr_size : Nat := 8

/-- Sender hardware address: the `ar_hln` bytes at `p`. -/
def arp_sha (buf : List Nat) : List Nat :=
  ((buf.drop arphdr_size).take (ar_hln buf))

/-- Sender protocol address `src_ip`: 4 bytes at `p + ar_hln`. -/
def arp_spa (buf : List Nat) : List Nat :=
  (((buf.drop arphdr_size).drop (ar_hln buf)).take 4)

/-- Target hardware address: the `ar_hln` bytes at `p + ar_hln + 4`. -/
def arp_tha (buf : List Nat) : List Nat :=
  (((buf.drop arphdr_size).drop (ar_hln buf + 4)).take (ar_hln buf))

/-- Target protocol address `dst_ip`: 4 bytes at `p + ar_hln + 4 + ar_hln`. -/
def arp_tpa (buf : List Nat) : List Nat :=
  (((buf.drop arphdr_size).drop (2 * ar_hln buf + 4)).take 4)

/-- The all-zero IPv4 address (`s_addr == 0`). -/
def in_addr_zero : List Nat := List.replicate 4 0

/-! ### Packet codec: encode (`send_pack`) -/

/-- The wire buffer built by `send_pack` (arping.c lines 325-357):
hardware type (FDDI normalized to Ethernet), protocol type IPv4,
hardware length, protocol length 4, operation (reply when advertising,
else request), then sender hw addr, sender IP (`gsrc`), target hw addr
(own address when advertising, else the current destination `he`), and
target IP (`gdst`). -/
def send_pack_buf (ctl : run_state) : List Nat :=
  let hrd := if ctl.me.sll_hatype = ARPHRD_FDDI then ARPHRD_ETHER else ctl.me.sll_hatype
  let hln := ctl.me.sll_halen
  let op := if ctl.advert then ARPOP_REPLY else ARPOP_REQUEST
  be16 hrd ++ be16 ETH_P_IP ++ [hln % 256, 4] ++ be16 op ++
    ctl.me.sll_addr.take hln ++
    ctl.gsrc.take 4 ++
    (if ctl.advert then ctl.me.sll_addr.take hln else ctl.he.sll_addr.take hln) ++
    ctl.gdst.take 4

/-- The counter update `send_pack` performs when the `sendto` wrote the
whole buffer (`err == p - buf`): increment `sent`, and `brd_sent` as well
while not yet unicasting (arping.c lines 360-365). -/
def send_pack_update (ctl : run_state) (sendOk : Bool) : run_state :=
  if sendOk then
    { ctl with
      sent := ctl.sent + 1,
      brd_sent := if ¬ctl.unicasting then ctl.brd_sent + 1 else ctl.brd_sent }
  else ctl

/-! ### Packet codec: decode and validate (`recv_pack`) -/

/-- The structural validation prefix of `recv_pack` (arping.c lines
416-439), in source order: packet class, operation, hardware type (with
the FDDI hack), protocol type, protocol length, hardware length against
the local interface, and minimum frame length. -/
def struct_valid (ctl : run_state) (buf : List Nat) (fr : sockaddr_ll) : Bool :=
  (fr.sll_pkttype == PACKET_HOST || fr.sll_pkttype == PACKET_BROADCAST ||
    fr.sll_pkttype == PACKET_MULTICAST) &&
  (ar_op buf == ARPOP_REQUEST || ar_op buf == ARPOP_REPLY) &&
  (ar_hrd buf == fr.sll_hatype ||
    (fr.sll_hatype == ARPHRD_FDDI && ar_hrd buf == ARPHRD_ETHER)) &&
  (ar_pro buf == ETH_P_IP) &&
  (ar_pln buf == 4) &&
  (ar_hln buf == ctl.me.sll_halen) &&
  (arphdr_size + 2 * (4 + ar_hln buf) ≤ buf.length) &&
  true

/-- The mode-specific semantic validation of `recv_pack` (arping.c lines
442-471).  Normal mode: sender IP must be the target we query, target IP
must be our source, and the frame's target hardware address must be our
own (a `memcmp` over `ar_hln` bytes).  DAD mode: sender IP must be the
tested address, sender hardware address must differ from our own (a
`memcmp` over `sll_halen` bytes of `p`), and if `gsrc` is non-zero the
frame's target IP must equal it. -/
def mode_valid (ctl : run_state) (buf : List Nat) : Bool :=
  if ¬ctl.dad then
    (arp_spa buf == ctl.gdst) &&
    (ctl.gsrc == arp_tpa buf) &&
    (arp_tha buf == ctl.me.sll_addr.take (ar_hln buf))
  else
    (arp_spa buf == ctl.gdst) &&
    (!((buf.drop arphdr_size).take ctl.me.sll_halen ==
        ctl.me.sll_addr.take ctl.me.sll_halen)) &&
    (ctl.gsrc == in_addr_zero || ctl.gsrc == arp_tpa buf)

/-- A frame passes `recv_pack`'s whole validation chain: every structural
check and the mode-specific semantic check. -/
def recv_pack_valid (ctl : run_state) (buf : List Nat) (fr : sockaddr_ll) : Bool :=
  struct_valid ctl buf fr && mode_valid ctl buf

/-- `recv_pack` (arping.c lines 405-516) as a pure function: the result
code (0 = ignore, 1 = accepted, `FINAL_PACKS` = accepted and terminate)
together with the updated session state.  On acceptance, in source order:
increment `received`; if a timeout budget is set and `received` reached
`count`, return `FINAL_PACKS`; count broadcast and request frames; if
quitting on first reply, or count is exactly 0 and all sent probes are
answered, return `FINAL_PACKS`; otherwise, unless broadcast-only, copy
the frame's sender hardware address over the first `sll_halen` bytes of
the destination `he` and set `unicasting`. -/
def recv_pack (ctl : run_state) (buf : List Nat) (fr : sockaddr_ll) :
    Nat × run_state :=
  if recv_pack_valid ctl buf fr then
    let c1 : run_state := { ctl with received := ctl.received + 1 }
    if c1.timeout ≠ 0 ∧ (c1.received : Int) = c1.count then
      (FINAL_PACKS, c1)
    else
      let c2 : run_state :=
        if fr.sll_pkttype ≠ PACKET_HOST then { c1 with brd_recv := c1.brd_recv + 1 } else c1
      let c3 : run_state :=
        if ar_op buf = ARPOP_REQUEST then { c2 with req_recv := c2.req_recv + 1 } else c2
      if c3.quit_on_reply ∨ (c3.count = 0 ∧ c3.received = c3.sent) then
        (FINAL_PACKS, c3)
      else if ¬c3.broadcast_only then
        (1, { c3 with
                he := { c3.he with
                          sll_addr := (buf.drop arphdr_size).take c3.me.sll_halen ++
                                      c3.he.sll_addr.drop c3.me.sll_halen },
                unicasting := true })
      else
        (1, c3)
  else
    (0, ctl)

/-! ### Finisher -/

/-- The mode-specific base exit code of `finish` (arping.c lines 387-391):
in DAD mode `!!received`, in unsolicited mode 0, otherwise `!received`. -/
def finish (ctl : run_state) : Nat :=
  if ctl.dad then (if ctl.received ≠ 0 then 1 else 0)
  else if ctl.unsolicited then 0
  else (if ctl.received = 0 then 1 else 0)

/-! ### Interface-flag check -/

/-- Outcome of `check_ifflags`: `procExit c` models `exit(c)`, `skip`
models the `-1` return (candidate discarded), `ok` the `0` return. -/
inductive IfflagsResult where
  | procExit (code : Nat)
  | skip
  | ok
deriving Repr, DecidableEq

/-- `check_ifflags` (arping.c lines 544-563).  `hasDeviceName` is whether
an interface-name hint was supplied (`ctl->device.name != NULL`); `dad`
is the duplicate-address-detection flag.  Down interfaces: fatal exit 2
with a name, skip without.  Non-ARPable (NOARP or loopback): exit 0 in
DAD mode and 2 otherwise with a name, skip without.  Otherwise ok. -/
def check_ifflags (hasDeviceName : Bool) (dad : Bool) (ifflags : Nat) :
    IfflagsResult :=
  if ifflags &&& IFF_UP = 0 then
    if hasDeviceName then .procExit 2 else .skip
  else if ifflags &&& (IFF_NOARP ||| IFF_LOOPBACK) ≠ 0 then
    if hasDeviceName then .procExit (if dad then 0 else 2) else .skip
  else .ok

/-- The effect of the `-D` option in `main` (arping.c lines 1088-1091):
duplicate-address-detection mode also sets quit-on-first-reply. -/
def set_dad_option (ctl : run_state) : run_state :=
  { ctl with dad := true, quit_on_reply := true }

/-! ### Event loop

The loop multiplexes three readiness sources.  A run is modelled as a
sequence of wakes; each wake is either a failed `poll` or a list of the
per-descriptor events handled that wake (in descriptor-scan order in the
C; the model allows any order, which only widens the set of runs).  The
`while (!exit_loop)` condition is checked between wakes; within one wake
the scan continues even after `exit_loop` is set, exactly as in the C
`for` loop over descriptors. -/

/-- One readiness event inside a wake of the event loop:
a signal (terminating or not), a timer expiry batch (carrying whether the
probe transmitted by that tick was fully written), a failed `recvfrom`
(carrying whether `errno` was `ENETDOWN`), or a received frame. -/
inductive Event where
  | signal (isTerm : Bool)
  | timer (exp : Nat) (sendOk : Bool)
  | sockErr (netdown : Bool)
  | frame (buf : List Nat) (fr : sockaddr_ll)
deriving Repr, DecidableEq

/-- One wake of the `poll` loop: either `poll` itself failed (with or
without `EAGAIN`), or it returned ready descriptors whose events are then
handled in order. -/
inductive Wake where
  | pollFail (eagain : Bool)
  | ready (evs : List Event)
deriving Repr, DecidableEq

/-- The local state of `event_loop`: the session state, the accumulated
`rc`, the `exit_loop` flag and the integrated timer-expiry count
`total_expires` (initialized to 1). -/
structure loop_state where
  ctl : run_state
  rc : Nat
  exit_loop : Bool
  total_expires : Nat
deriving Repr, DecidableEq

/-- Handling of a single ready descriptor inside a wake (arping.c lines
993-1038): a recognised termination signal sets `exit_loop`; a timer read
integrates the expiry count, exits once a positive `count` is exceeded
and otherwise sends a probe; a failed receive sets `rc = 2` on
`ENETDOWN`; a received frame runs `recv_pack` and sets `exit_loop` when
it returns `FINAL_PACKS`. -/
def handle_event (ls : loop_state) (ev : Event) : loop_state :=
  match ev with
  | .signal isTerm =>
      if isTerm then { ls with exit_loop := true } else ls
  | .timer exp sendOk =>
      let te := ls.total_expires + exp
      if 0 < ls.ctl.count ∧ ls.ctl.count < (te : Int) then
        { ls with total_expires := te, exit_loop := true }
      else
        { ls with total_expires := te, ctl := send_pack_update ls.ctl sendOk }
  | .sockErr netdown =>
      if netdown then { ls with rc := 2 } else ls
  | .frame buf fr =>
      let r := recv_pack ls.ctl buf fr
      { ls with ctl := r.2, exit_loop := ls.exit_loop || (r.1 == FINAL_PACKS) }

/-- One iteration of the `while (!exit_loop)` loop: nothing happens once
`exit_loop` is set; a failed `poll` continues on `EAGAIN` and otherwise
sets `exit_loop`; a successful `poll` handles each ready event. -/
def wake_step (ls : loop_state) (w : Wake) : loop_state :=
  if ls.exit_loop then ls
  else
    match w with
    | .pollFail eagain => if eagain then ls else { ls with exit_loop := true }
    | .ready evs => evs.foldl handle_event ls

/-- The state of `event_loop` just before its first `poll`: `rc = 0`,
`total_expires = 1`, and the first probe already sent synchronously
(arping.c line 977). -/
def event_loop_start (ctl : run_state) (firstSendOk : Bool) : loop_state :=
  { ctl := send_pack_update ctl firstSendOk,
    rc := 0, exit_loop := false, total_expires := 1 }

/-- The loop state after processing a whole run's wakes. -/
def event_loop_final (ctl : run_state) (firstSendOk : Bool)
    (wakes : List Wake) : loop_state :=
  wakes.foldl wake_step (event_loop_start ctl firstSendOk)

/-- The value `event_loop` returns (arping.c lines 1049-1051): the
accumulated `rc`, OR-ed with `finish`'s base code, OR-ed with
`!(brd_sent != received)`. -/
def event_loop_rc (ctl : run_state) (firstSendOk : Bool)
    (wakes : List Wake) : Nat :=
  let ls := event_loop_final ctl firstSendOk wakes
  (ls.rc ||| finish ls.ctl) |||
    (if ¬(ls.ctl.brd_sent ≠ ls.ctl.received) then 1 else 0)

/-! ### Concrete sample states and frames (used by witnesses) -/

/-- A sample local binding: Ethernet, 6-byte hardware address. -/
def exMe : sockaddr_ll :=
  { sll_pkttype := 0, sll_hatype := ARPHRD_ETHER, sll_halen := 6,
    sll_addr := [1, 2, 3, 4, 5, 6] }

/-- A sample destination binding, still the broadcast address. -/
def exHe : sockaddr_ll :=
  { sll_pkttype := 0, sll_hatype := ARPHRD_ETHER, sll_halen := 6,
    sll_addr := [255, 255, 255, 255, 255, 255] }

/-- A sample normal-resolution session: default count `-1`, no timeout,
one probe already sent. -/
def exCtl : run_state :=
  { count := -1, timeout := 0, me := exMe, he := exHe,
    gsrc := [10, 0, 0, 1], gdst := [10, 0, 0, 2],
    sent := 1, brd_sent := 1, received := 0, brd_recv := 0, req_recv := 0,
    advert := false, broadcast_only := false, dad := false, quiet := true,
    quit_on_reply := false, unicasting := false, unsolicited := false }

/-- Link-layer metadata of a sample received frame (unicast to us,
Ethernet). -/
def exFr : sockaddr_ll :=
  { sll_pkttype := PACKET_HOST, sll_hatype := ARPHRD_ETHER, sll_halen := 6,
    sll_addr := [] }

/-- A well-formed ARP reply to `exCtl`'s query, from hardware address
`9:9:9:9:9:9`. -/
def exReply : List Nat :=
  be16 ARPHRD_ETHER ++ be16 ETH_P_IP ++ [6, 4] ++ be16 ARPOP_REPLY ++
    [9, 9, 9, 9, 9, 9] ++ [10, 0, 0, 2] ++ [1, 2, 3, 4, 5, 6] ++ [10, 0, 0, 1]

/-- A sample duplicate-address-detection session testing `10.0.0.2`. -/
def exDadCtl : run_state := set_dad_option exCtl

/-- A conflicting ARP request seen in DAD mode: sender protocol address is
the tested address, sender hardware address is foreign. -/
def exDadBuf : List Nat :=
  be16 ARPHRD_ETHER ++ be16 ETH_P_IP ++ [6, 4] ++ be16 ARPOP_REQUEST ++
    [9, 9, 9, 9, 9, 9] ++ [10, 0, 0, 2] ++ [7, 7, 7, 7, 7, 7] ++ [10, 0, 0, 1]

/-- A frame whose ARP hardware length (8) differs from `exMe`'s (6). -/
def exBadHlnBuf : List Nat :=
  be16 ARPHRD_ETHER ++ be16 ETH_P_IP ++ [8, 4] ++ be16 ARPOP_REPLY ++
    [9, 9, 9, 9, 9, 9, 9, 9] ++ [10, 0, 0, 2] ++
    [1, 2, 3, 4, 5, 6, 7, 8] ++ [10, 0, 0, 1]

/-! ### Claim theorems -/

/-- Claim C1: the base exit code computed by `finish` is: in DAD mode 0
iff `received = 0` and non-zero for any positive `received`; in
unsolicited mode always 0; in normal mode 0 iff at least one response was
received — and the DAD test takes precedence over the unsolicited one. -/
theorem finish_exit_code_law (ctl : run_state) :
    (ctl.dad = true →
      ((finish ctl = 0 ↔ ctl.received = 0) ∧
       (0 < ctl.received → finish ctl ≠ 0))) ∧
    (ctl.dad = false → ctl.unsolicited = true → finish ctl = 0) ∧
    (ctl.dad = false → ctl.unsolicited = false →
      (finish ctl = 0 ↔ 1 ≤ ctl.received)) ∧
    (ctl.dad = true → ctl.unsolicited = true →
      finish ctl = (if ctl.received = 0 then 0 else 1)) := by
  unfold finish
  refine ⟨fun hd => ?_, fun hd hu => ?_, fun hd hu => ?_, fun hd hu => ?_⟩
  · by_cases hr : ctl.received = 0 <;> simp [hd, hr]
  · by_cases hr : ctl.received = 0 <;> simp [hd, hu, hr]
  · by_cases hr : ctl.received = 0
    · simp [hd, hu, hr]
    · simp [hd, hu, hr]
      omega
  · by_cases hr : ctl.received = 0 <;> simp [hd, hr]

/-- Witness for C1 at concrete sessions in each of the three modes. -/
theorem finish_exit_code_law_witness :
    finish { exCtl with dad := true, received := 3 } ≠ 0 ∧
    finish { exCtl with unsolicited := true } = 0 ∧
    (finish exCtl = 0 ↔ 1 ≤ exCtl.received) :=
  ⟨((finish_exit_code_law { exCtl with dad := true, received := 3 }).1
      (by decide)).2 (by decide),
   (finish_exit_code_law { exCtl with unsolicited := true }).2.1
      (by decide) (by decide),
   (finish_exit_code_law exCtl).2.2.1 (by decide) (by decide)⟩

/-- Claim C6: a frame whose ARP hardware length differs from the local
interface's is rejected, and more generally every rejected frame yields
the ignore result 0 with the session state — every counter, the
destination link address and the unicasting flag — unchanged. -/
theorem recv_pack_reject_no_mutation (ctl : run_state) (buf : List Nat)
    (fr : sockaddr_ll) :
    (ar_hln buf ≠ ctl.me.sll_halen → recv_pack_valid ctl buf fr = false) ∧
    (recv_pack_valid ctl buf fr = false → recv_pack ctl buf fr = (0, ctl)) := by
  constructor
  · intro h
    unfold recv_pack_valid struct_valid
    simp [h]
  · intro h
    unfold recv_pack
    simp [h]

/-- Witness for C6: the mismatched-hardware-length frame `exBadHlnBuf` is
rejected and mutates nothing. -/
theorem recv_pack_reject_no_mutation_witness :
    recv_pack_valid exCtl exBadHlnBuf exFr = false ∧
    recv_pack exCtl exBadHlnBuf exFr = (0, exCtl) := by
  have h := recv_pack_reject_no_mutation exCtl exBadHlnBuf exFr
  have h1 : recv_pack_valid exCtl exBadHlnBuf exFr = false := h.1 (by decide)
  exact ⟨h1, h.2 h1⟩

/-- Claim C8: with an interface-name hint, a down interface is fatal with
exit status 2 and a non-ARPable (NOARP or loopback) interface is fatal
with status 0 in DAD mode and 2 otherwise; without a hint the same flag
failures merely skip the candidate. -/
theorem check_ifflags_hint_fatality (ifflags : Nat) (dad : Bool) :
    (ifflags &&& IFF_UP = 0 →
      check_ifflags true dad ifflags = IfflagsResult.procExit 2 ∧
      check_ifflags false dad ifflags = IfflagsResult.skip) ∧
    (ifflags &&& IFF_UP ≠ 0 → ifflags &&& (IFF_NOARP ||| IFF_LOOPBACK) ≠ 0 →
      (check_ifflags true true ifflags = IfflagsResult.procExit 0 ∧
       check_ifflags true false ifflags = IfflagsResult.procExit 2 ∧
       check_ifflags false dad ifflags = IfflagsResult.skip)) := by
  unfold check_ifflags
  constructor
  · intro h
    simp [h]
  · intro h1 h2
    simp [h1, h2]

/-- Witness for C8: flags 0 (down) with a hint exit 2; flags 0x81 (up but
NOARP) exit 0 in DAD mode with a hint, and are skipped without one. -/
theorem check_ifflags_hint_fatality_witness :
    check_ifflags true false 0 = IfflagsResult.procExit 2 ∧
    check_ifflags true true 0x81 = IfflagsResult.procExit 0 ∧
    check_ifflags false false 0x81 = IfflagsResult.skip :=
  ⟨((check_ifflags_hint_fatality 0 false).1 (by decide)).1,
   ((check_ifflags_hint_fatality 0x81 false).2 (by decide) (by decide)).1,
   ((check_ifflags_hint_fatality 0x81 false).2 (by decide) (by decide)).2.2⟩

/-- Claim C9: `-D` sets quit-on-first-reply, and under quit-on-first-reply
`recv_pack` never reaches the broadcast-to-unicast transition: the
destination link address and the unicasting flag survive every frame, and
every accepted frame yields the termination result. -/
theorem recv_pack_quit_on_reply_never_unicasts (ctl : run_state)
    (buf : List Nat) (fr : sockaddr_ll) :
    (set_dad_option ctl).quit_on_reply = true ∧
    (ctl.quit_on_reply = true →
      ((recv_pack ctl buf fr).2.he = ctl.he ∧
       (recv_pack ctl buf fr).2.unicasting = ctl.unicasting ∧
       (recv_pack_valid ctl buf fr = true →
         (recv_pack ctl buf fr).1 = FINAL_PACKS))) := by
  refine ⟨rfl, fun hq => ?_⟩
  unfold recv_pack
  split_ifs <;> simp_all <;> (try (split <;> simp_all))

/-- Witness for C9: under `exDadCtl` (which has quit-on-first-reply set by
`-D`) the conflicting frame terminates and leaves the destination
untouched. -/
theorem recv_pack_quit_on_reply_never_unicasts_witness :
    (recv_pack exDadCtl exDadBuf exFr).2.he = exDadCtl.he ∧
    (recv_pack exDadCtl exDadBuf exFr).1 = FINAL_PACKS := by
  have h := (recv_pack_quit_on_reply_never_unicasts exDadCtl exDadBuf exFr).2
      (by decide)
  exact ⟨h.1, h.2.2 (by decide)⟩

/-- Claim C10: with a timeout budget configured, an accepted frame that
brings `received` up to `count` terminates before the broadcast-received
and request-received breakdown counters are incremented: `received` is
counted, `brd_recv` and `req_recv` are not. -/
theorem recv_pack_timeout_final_excludes_breakdown (ctl : run_state)
    (buf : List Nat) (fr : sockaddr_ll)
    (ht : ctl.timeout ≠ 0) (hv : recv_pack_valid ctl buf fr = true)
    (hc : ((ctl.received + 1 : Nat) : Int) = ctl.count) :
    (recv_pack ctl buf fr).1 = FINAL_PACKS ∧
    (recv_pack ctl buf fr).2.received = ctl.received + 1 ∧
    (recv_pack ctl buf fr).2.brd_recv = ctl.brd_recv ∧
    (recv_pack ctl buf fr).2.req_recv = ctl.req_recv := by
  unfold recv_pack
  simp [hv, ht, hc]

/-- Witness for C10: a session with `timeout = 5`, `count = 1` accepting
`exReply` terminates with `received = 1` and untouched breakdown. -/
theorem recv_pack_timeout_final_excludes_breakdown_witness :
    (recv_pack { exCtl with timeout := 5, count := 1 } exReply exFr).1 =
      FINAL_PACKS ∧
    (recv_pack { exCtl with timeout := 5, count := 1 } exReply exFr).2.brd_recv =
      { exCtl with timeout := 5, count := 1 }.brd_recv :=
  ⟨(recv_pack_timeout_final_excludes_breakdown
      { exCtl with timeout := 5, count := 1 } exReply exFr
      (by decide) (by decide) (by decide)).1,
   (recv_pack_timeout_final_excludes_breakdown
      { exCtl with timeout := 5, count := 1 } exReply exFr
      (by decide) (by decide) (by decide)).2.2.1⟩

/-- Counterexample to C3 as stated: in the default unlimited-count session
`exCtl` (`count = -1 ≤ 0`), the accepted reply makes `received` equal
`sent`, yet `recv_pack` returns 1, not the termination signal
`FINAL_PACKS`: the immediate-termination rule fires only at `count == 0`,
not for every `count <= 0`. -/
theorem recv_pack_count_negative_counterexample :
    exCtl.count ≤ 0 ∧
    (recv_pack exCtl exReply exFr).2.received =
      (recv_pack exCtl exReply exFr).2.sent ∧
    (recv_pack exCtl exReply exFr).2.received = exCtl.received + 1 ∧
    (recv_pack exCtl exReply exFr).1 ≠ FINAL_PACKS := by
  decide

/-- Claim C3 amended: only when the probe count is exactly 0 does an
accepted response that makes `received` equal `sent` return the
termination signal immediately; the event loop then exits on that frame
without waiting for another timer tick. -/
theorem recv_pack_count_zero_all_answered_final (ctl : run_state)
    (buf : List Nat) (fr : sockaddr_ll)
    (hv : recv_pack_valid ctl buf fr = true) (hc : ctl.count = 0)
    (hs : ctl.received + 1 = ctl.sent) :
    (recv_pack ctl buf fr).1 = FINAL_PACKS ∧
    (∀ ls : loop_state, ls.ctl = ctl →
      (handle_event ls (Event.frame buf fr)).exit_loop = true) := by
  have hfin : (recv_pack ctl buf fr).1 = FINAL_PACKS := by
    unfold recv_pack
    split_ifs <;> simp_all <;> (try (split <;> simp_all))
  refine ⟨hfin, fun ls hls => ?_⟩
  simp [handle_event, hls, hfin]

/-- Witness for amended C3: with `count = 0`, one probe out and the reply
in, `recv_pack` signals termination. -/
theorem recv_pack_count_zero_all_answered_final_witness :
    (recv_pack { exCtl with count := 0 } exReply exFr).1 = FINAL_PACKS :=
  (recv_pack_count_zero_all_answered_final { exCtl with count := 0 }
    exReply exFr (by decide) (by decide) (by decide)).1

/-- Counterexample to C4 as stated: an accepted response that triggers
termination (here via quit-on-first-reply, with broadcast-only off and
not yet unicasting) does NOT update the destination link address or the
unicasting flag — the update is skipped on terminating responses. -/
theorem recv_pack_terminating_no_retarget_counterexample :
    { exCtl with quit_on_reply := true }.broadcast_only = false ∧
    { exCtl with quit_on_reply := true }.unicasting = false ∧
    (recv_pack { exCtl with quit_on_reply := true } exReply exFr).2.received =
      { exCtl with quit_on_reply := true }.received + 1 ∧
    (recv_pack { exCtl with quit_on_reply := true } exReply exFr).2.unicasting =
      false ∧
    (recv_pack { exCtl with quit_on_reply := true } exReply exFr).2.he =
      { exCtl with quit_on_reply := true }.he := by
  decide

/-- Claim C4 amended: every accepted response increments `received` by
exactly one; and when the response does not trigger termination (neither
the timeout/count rule, nor quit-on-first-reply, nor the count-0
all-answered rule) and broadcast-only mode is off, the destination link
address is overwritten with the frame's sender hardware address and the
unicasting flag is set. -/
theorem recv_pack_accept_effects (ctl : run_state) (buf : List Nat)
    (fr : sockaddr_ll) (hv : recv_pack_valid ctl buf fr = true) :
    (recv_pack ctl buf fr).2.received = ctl.received + 1 ∧
    (¬(ctl.timeout ≠ 0 ∧ ((ctl.received + 1 : Nat) : Int) = ctl.count) →
     ctl.quit_on_reply = false →
     ¬(ctl.count = 0 ∧ ctl.received + 1 = ctl.sent) →
     ctl.broadcast_only = false →
     ((recv_pack ctl buf fr).2.he.sll_addr =
        (buf.drop arphdr_size).take ctl.me.sll_halen ++
          ctl.he.sll_addr.drop ctl.me.sll_halen ∧
      (recv_pack ctl buf fr).2.unicasting = true)) := by
  constructor
  · unfold recv_pack
    simp only [hv, if_true]
    split_ifs <;> simp_all
  · intro hterm hq hcnt hb
    unfold recv_pack
    simp only [hv, if_true]
    split_ifs <;> simp_all

/-- Witness for amended C4: `exCtl` accepting `exReply` counts it and
switches the destination to the responder's hardware address. -/
theorem recv_pack_accept_effects_witness :
    (recv_pack exCtl exReply exFr).2.received = exCtl.received + 1 ∧
    (recv_pack exCtl exReply exFr).2.unicasting = true :=
  ⟨(recv_pack_accept_effects exCtl exReply exFr (by decide)).1,
   ((recv_pack_accept_effects exCtl exReply exFr (by decide)).2
      (by decide) (by decide) (by decide) (by decide)).2⟩

/-- Claim C5: in DAD mode, a structurally valid frame is accepted iff its
sender protocol address equals the tested address, its sender hardware
address differs from the local one, and the configured source address is
zero or matches the frame's target protocol address; a frame carrying the
local hardware address as sender is always rejected. -/
theorem recv_pack_dad_acceptance (ctl : run_state) (buf : List Nat)
    (fr : sockaddr_ll)
    (hdad : ctl.dad = true) (hs : struct_valid ctl buf fr = true) :
    (recv_pack_valid ctl buf fr = true ↔
      (arp_spa buf = ctl.gdst ∧
       (buf.drop arphdr_size).take ctl.me.sll_halen ≠
         ctl.me.sll_addr.take ctl.me.sll_halen ∧
       (ctl.gsrc = in_addr_zero ∨ ctl.gsrc = arp_tpa buf))) ∧
    ((buf.drop arphdr_size).take ctl.me.sll_halen =
       ctl.me.sll_addr.take ctl.me.sll_halen →
      recv_pack_valid ctl buf fr = false) := by
  unfold recv_pack_valid mode_valid
  simp [hs, hdad]
  tauto

/-- Witness for C5: the conflicting DAD frame `exDadBuf` (foreign sender
hardware address, tested sender protocol address) is accepted. -/
theorem recv_pack_dad_acceptance_witness :
    recv_pack_valid exDadCtl exDadBuf exFr = true :=
  (recv_pack_dad_acceptance exDadCtl exDadBuf exFr (by decide)
    (by decide)).1.mpr (by decide)

/-! ### The generic ARP wire layout, and the round-trip property -/

/-- The generic ARP wire frame of spec §6: header (hardware type,
protocol type IPv4, hardware length, protocol length 4, operation)
followed by sender hardware address, sender protocol address, target
hardware address, target protocol address. -/
def mk_frame (hrd op hln : Nat) (sha spa tha tpa : List Nat) : List Nat :=
  be16 hrd ++ be16 ETH_P_IP ++ [hln % 256, 4] ++ be16 op ++
    sha ++ spa ++ tha ++ tpa

lemma mk_frame_cons (hrd op hln : Nat) (sha spa tha tpa : List Nat) :
    mk_frame hrd op hln sha spa tha tpa =
      hrd / 256 % 256 :: hrd % 256 :: 8 :: 0 :: hln % 256 :: 4 ::
        op / 256 % 256 :: op % 256 :: (sha ++ (spa ++ (tha ++ tpa))) := by
  simp [mk_frame, be16, ETH_P_IP]

lemma send_pack_buf_eq_mk_frame (ctl : run_state) :
    send_pack_buf ctl =
      mk_frame
        (if ctl.me.sll_hatype = ARPHRD_FDDI then ARPHRD_ETHER
         else ctl.me.sll_hatype)
        (if ctl.advert then ARPOP_REPLY else ARPOP_REQUEST)
        ctl.me.sll_halen
        (ctl.me.sll_addr.take ctl.me.sll_halen)
        (ctl.gsrc.take 4)
        (if ctl.advert then ctl.me.sll_addr.take ctl.me.sll_halen
         else ctl.he.sll_addr.take ctl.me.sll_halen)
        (ctl.gdst.take 4) := rfl

lemma ar_hrd_mk_frame (hrd op hln : Nat) (sha spa tha tpa : List Nat)
    (h : hrd < 65536) :
    ar_hrd (mk_frame hrd op hln sha spa tha tpa) = hrd := by
  rw [mk_frame_cons]
  simp [ar_hrd, read_be16]
  omega

lemma ar_pro_mk_frame (hrd op hln : Nat) (sha spa tha tpa : List Nat) :
    ar_pro (mk_frame hrd op hln sha spa tha tpa) = ETH_P_IP := by
  rw [mk_frame_cons]
  simp [ar_pro, read_be16, ETH_P_IP]

lemma ar_hln_mk_frame (hrd op hln : Nat) (sha spa tha tpa : List Nat)
    (h : hln < 256) :
    ar_hln (mk_frame hrd op hln sha spa tha tpa) = hln := by
  rw [mk_frame_cons]
  simp [ar_hln]
  omega

lemma ar_pln_mk_frame (hrd op hln : Nat) (sha spa tha tpa : List Nat) :
    ar_pln (mk_frame hrd op hln sha spa tha tpa) = 4 := by
  rw [mk_frame_cons]
  simp [ar_pln]

lemma ar_op_mk_frame (hrd op hln : Nat) (sha spa tha tpa : List Nat)
    (h : op < 65536) :
    ar_op (mk_frame hrd op hln sha spa tha tpa) = op := by
  rw [mk_frame_cons]
  simp [ar_op, read_be16]
  omega

lemma drop_header_mk_frame (hrd op hln : Nat) (sha spa tha tpa : List Nat) :
    (mk_frame hrd op hln sha spa tha tpa).drop arphdr_size =
      sha ++ (spa ++ (tha ++ tpa)) := by
  rw [mk_frame_cons]
  rfl

lemma length_mk_frame (hrd op hln : Nat) (sha spa tha tpa : List Nat) :
    (mk_frame hrd op hln sha spa tha tpa).length =
      8 + sha.length + spa.length + tha.length + tpa.length := by
  rw [mk_frame_cons]
  simp
  omega

/-- Claim C7 (round-trip): the wire buffer `send_pack` produces for a
request frame (advertise off), decoded by `recv_pack` against the
mirrored configuration — destination and source protocol addresses
swapped, normal mode, matching hardware length, the frame's target
hardware address being the receiver's own — passes every structural and
semantic check and is accepted. -/
theorem send_recv_roundtrip (s r : run_state) (fr : sockaddr_ll)
    (hadv : s.advert = false)
    (hh : r.me.sll_halen = s.me.sll_halen)
    (h256 : s.me.sll_halen < 256)
    (hma : s.me.sll_halen ≤ s.me.sll_addr.length)
    (hha : s.me.sll_halen ≤ s.he.sll_addr.length)
    (hgs : s.gsrc.length = 4)
    (hgd : s.gdst.length = 4)
    (hm1 : r.gdst = s.gsrc)
    (hm2 : r.gsrc = s.gdst)
    (hdad : r.dad = false)
    (htha : s.he.sll_addr.take s.me.sll_halen =
              r.me.sll_addr.take s.me.sll_halen)
    (hpkt : fr.sll_pkttype = PACKET_HOST ∨ fr.sll_pkttype = PACKET_BROADCAST ∨
              fr.sll_pkttype = PACKET_MULTICAST)
    (hhat : fr.sll_hatype =
              (if s.me.sll_hatype = ARPHRD_FDDI then ARPHRD_ETHER
               else s.me.sll_hatype))
    (h16 : s.me.sll_hatype < 65536) :
    recv_pack_valid r (send_pack_buf s) fr = true ∧
    (recv_pack r (send_pack_buf s) fr).1 ≠ 0 := by
  have hB : send_pack_buf s =
      mk_frame (if s.me.sll_hatype = ARPHRD_FDDI then ARPHRD_ETHER
                else s.me.sll_hatype)
        ARPOP_REQUEST s.me.sll_halen
        (s.me.sll_addr.take s.me.sll_halen) (s.gsrc.take 4)
        (s.he.sll_addr.take s.me.sll_halen) (s.gdst.take 4) := by
    rw [send_pack_buf_eq_mk_frame, hadv]
    simp
  have hrd16 : (if s.me.sll_hatype = ARPHRD_FDDI then ARPHRD_ETHER
                else s.me.sll_hatype) < 65536 := by
    split_ifs
    · decide
    · exact h16
  have hsha_len : (s.me.sll_addr.take s.me.sll_halen).length = s.me.sll_halen := by
    rw [List.length_take]
    omega
  have htha_len : (s.he.sll_addr.take s.me.sll_halen).length = s.me.sll_halen := by
    rw [List.length_take]
    omega
  have hspa_eq : s.gsrc.take 4 = s.gsrc := by
    rw [← hgs, List.take_length]
  have htpa_eq : s.gdst.take 4 = s.gdst := by
    rw [← hgd, List.take_length]
  have hspa_len : (s.gsrc.take 4).length = 4 := by rw [hspa_eq, hgs]
  have htpa_len : (s.gdst.take 4).length = 4 := by rw [htpa_eq, hgd]
  have e1 : ar_hrd (send_pack_buf s) =
      (if s.me.sll_hatype = ARPHRD_FDDI then ARPHRD_ETHER
       else s.me.sll_hatype) := by
    rw [hB]
    exact ar_hrd_mk_frame _ _ _ _ _ _ _ hrd16
  have e2 : ar_pro (send_pack_buf s) = ETH_P_IP := by
    rw [hB]
    exact ar_pro_mk_frame _ _ _ _ _ _ _
  have e3 : ar_hln (send_pack_buf s) = s.me.sll_halen := by
    rw [hB]
    exact ar_hln_mk_frame _ _ _ _ _ _ _ h256
  have e4 : ar_pln (send_pack_buf s) = 4 := by
    rw [hB]
    exact ar_pln_mk_frame _ _ _ _ _ _ _
  have e5 : ar_op (send_pack_buf s) = ARPOP_REQUEST := by
    rw [hB]
    exact ar_op_mk_frame _ _ _ _ _ _ _ (by simp [ARPOP_REQUEST])
  have e6 : (send_pack_buf s).drop arphdr_size =
      (s.me.sll_addr.take s.me.sll_halen) ++
        ((s.gsrc.take 4) ++
          ((s.he.sll_addr.take s.me.sll_halen) ++ (s.gdst.take 4))) := by
    rw [hB]
    exact drop_header_mk_frame _ _ _ _ _ _ _
  have e7 : (send_pack_buf s).length =
      8 + s.me.sll_halen + 4 + s.me.sll_halen + 4 := by
    rw [hB, length_mk_frame, hsha_len, hspa_len, htha_len, htpa_len]
  have p2 : arp_spa (send_pack_buf s) = s.gsrc := by
    unfold arp_spa
    rw [e6, e3, List.drop_left' hsha_len, List.take_left' hspa_len, hspa_eq]
  have p3 : arp_tha (send_pack_buf s) =
      s.he.sll_addr.take s.me.sll_halen := by
    unfold arp_tha
    rw [e6, e3]
    rw [show (s.me.sll_addr.take s.me.sll_halen) ++
          ((s.gsrc.take 4) ++
            ((s.he.sll_addr.take s.me.sll_halen) ++ (s.gdst.take 4))) =
        ((s.me.sll_addr.take s.me.sll_halen) ++ (s.gsrc.take 4)) ++
          ((s.he.sll_addr.take s.me.sll_halen) ++ (s.gdst.take 4)) from
      (List.append_assoc _ _ _).symm]
    rw [List.drop_left' (by rw [List.length_append, hsha_len, hspa_len]),
        List.take_left' htha_len]
  have p4 : arp_tpa (send_pack_buf s) = s.gdst := by
    unfold arp_tpa
    rw [e6, e3]
    rw [show (s.me.sll_addr.take s.me.sll_halen) ++
          ((s.gsrc.take 4) ++
            ((s.he.sll_addr.take s.me.sll_halen) ++ (s.gdst.take 4))) =
        (((s.me.sll_addr.take s.me.sll_halen) ++ (s.gsrc.take 4)) ++
          (s.he.sll_addr.take s.me.sll_halen)) ++ (s.gdst.take 4) by
      simp [List.append_assoc]]
    rw [List.drop_left' (by
          rw [List.length_append, List.length_append, hsha_len, hspa_len,
              htha_len]
          omega)]
    simp [htpa_eq]
  have hsv : struct_valid r (send_pack_buf s) fr = true := by
    unfold struct_valid
    rw [e1, e2, e3, e4, e5, e7]
    simp [hh, hhat, ARPOP_REQUEST, ARPOP_REPLY, arphdr_size]
    constructor
    · rcases hpkt with h | h | h <;> simp [h, PACKET_HOST, PACKET_BROADCAST,
        PACKET_MULTICAST]
    · omega
  have hmv : mode_valid r (send_pack_buf s) = true := by
    unfold mode_valid
    rw [p2, p3, p4, e3]
    simp [hdad, hm1, hm2, ← htha, hh]
  have hvalid : recv_pack_valid r (send_pack_buf s) fr = true := by
    unfold recv_pack_valid
    rw [hsv, hmv]
    rfl
  refine ⟨hvalid, ?_⟩
  unfold recv_pack
  simp only [hvalid, if_true]
  split_ifs <;> simp [FINAL_PACKS]

/-- A receiver configuration mirroring `exCtl`: protocol addresses
swapped, local binding being `exCtl`'s current destination. -/
def exRecvCtl : run_state :=
  { exCtl with me := exHe, gsrc := [10, 0, 0, 2], gdst := [10, 0, 0, 1] }

/-- Link-layer metadata of `exCtl`'s broadcast probe as the receiver's
socket reports it. -/
def exBcastFr : sockaddr_ll :=
  { sll_pkttype := PACKET_BROADCAST, sll_hatype := ARPHRD_ETHER,
    sll_halen := 6, sll_addr := [] }

/-- Witness for C7: the probe `exCtl` broadcasts is accepted by the
mirrored receiver `exRecvCtl`. -/
theorem send_recv_roundtrip_witness :
    recv_pack_valid exRecvCtl (send_pack_buf exCtl) exBcastFr = true ∧
    (recv_pack exRecvCtl (send_pack_buf exCtl) exBcastFr).1 ≠ 0 :=
  send_recv_roundtrip exCtl exRecvCtl exBcastFr (by decide) (by decide)
    (by decide) (by decide) (by decide) (by decide) (by decide) (by decide)
    (by decide) (by decide) (by decide) (by decide) (by decide) (by decide)

/-! ### Event-loop invariants for the exit code -/

lemma handle_event_rc_cases (ls : loop_state) (ev : Event) :
    (handle_event ls ev).rc = ls.rc ∨
      ((handle_event ls ev).rc = 2 ∧ ev = Event.sockErr true) := by
  cases ev <;> simp [handle_event] <;> split_ifs <;> simp_all

lemma handle_event_rc_two (ls : loop_state) (ev : Event) (h : ls.rc = 2) :
    (handle_event ls ev).rc = 2 := by
  rcases handle_event_rc_cases ls ev with h2 | h2
  · rw [h2, h]
  · exact h2.1

lemma foldl_handle_rc_cases (evs : List Event) (ls : loop_state) :
    (evs.foldl handle_event ls).rc = ls.rc ∨
      ((evs.foldl handle_event ls).rc = 2 ∧ Event.sockErr true ∈ evs) := by
  induction evs generalizing ls with
  | nil => left; rfl
  | cons e t ih =>
      rcases ih (handle_event ls e) with h | h
      · rcases handle_event_rc_cases ls e with h2 | h2
        · left
          simp only [List.foldl_cons]
          rw [h, h2]
        · right
          refine ⟨by simp only [List.foldl_cons]; rw [h, h2.1], ?_⟩
          rw [h2.2]
          exact List.mem_cons_self _ _
      · right
        exact ⟨by simpa using h.1, List.mem_cons_of_mem _ h.2⟩

lemma foldl_handle_rc_two (evs : List Event) (ls : loop_state)
    (h : ls.rc = 2) : (evs.foldl handle_event ls).rc = 2 := by
  induction evs generalizing ls with
  | nil => exact h
  | cons e t ih =>
      simp only [List.foldl_cons]
      exact ih _ (handle_event_rc_two ls e h)

lemma foldl_handle_netdown (evs : List Event) (ls : loop_state)
    (h : Event.sockErr true ∈ evs) :
    (evs.foldl handle_event ls).rc = 2 := by
  induction evs generalizing ls with
  | nil => simp at h
  | cons e t ih =>
      rcases List.mem_cons.mp h with he | ht
      · simp only [List.foldl_cons]
        apply foldl_handle_rc_two
        rw [← he]
        simp [handle_event]
      · simp only [List.foldl_cons]
        exact ih _ ht

lemma handle_event_exit_mono (ls : loop_state) (ev : Event)
    (h : ls.exit_loop = true) : (handle_event ls ev).exit_loop = true := by
  cases ev <;> simp [handle_event] <;> (try split_ifs) <;> simp_all

lemma foldl_handle_exit_mono (evs : List Event) (ls : loop_state)
    (h : ls.exit_loop = true) :
    (evs.foldl handle_event ls).exit_loop = true := by
  induction evs generalizing ls with
  | nil => exact h
  | cons e t ih =>
      simp only [List.foldl_cons]
      exact ih _ (handle_event_exit_mono ls e h)

lemma wake_step_rc_cases (ls : loop_state) (w : Wake) :
    (wake_step ls w).rc = ls.rc ∨
      ((wake_step ls w).rc = 2 ∧
        ∃ evs, w = Wake.ready evs ∧ Event.sockErr true ∈ evs) := by
  cases w with
  | pollFail eagain =>
      unfold wake_step
      split_ifs with h1
      · left; rfl
      · cases eagain <;> simp
  | ready evs =>
      unfold wake_step
      split_ifs with h
      · left; rfl
      · rcases foldl_handle_rc_cases evs ls with h2 | h2
        · left; exact h2
        · right; exact ⟨h2.1, evs, rfl, h2.2⟩

lemma wake_step_rc_two (ls : loop_state) (w : Wake) (h : ls.rc = 2) :
    (wake_step ls w).rc = 2 := by
  cases w with
  | pollFail eagain =>
      unfold wake_step
      split_ifs with h1
      · exact h
      · cases eagain <;> simp [h]
  | ready evs =>
      unfold wake_step
      split_ifs with h1
      · exact h
      · exact foldl_handle_rc_two evs ls h

lemma wake_step_exit_mono (ls : loop_state) (w : Wake)
    (h : ls.exit_loop = true) : (wake_step ls w).exit_loop = true := by
  unfold wake_step
  simp [h]

lemma foldl_wake_exit_mono (ws : List Wake) (ls : loop_state)
    (h : ls.exit_loop = true) :
    (ws.foldl wake_step ls).exit_loop = true := by
  induction ws generalizing ls with
  | nil => exact h
  | cons w t ih =>
      simp only [List.foldl_cons]
      exact ih _ (wake_step_exit_mono ls w h)

lemma foldl_wake_rc_cases (ws : List Wake) (ls : loop_state) :
    (ws.foldl wake_step ls).rc = ls.rc ∨
      ((ws.foldl wake_step ls).rc = 2 ∧
        ∃ w ∈ ws, ∃ evs, w = Wake.ready evs ∧ Event.sockErr true ∈ evs) := by
  induction ws generalizing ls with
  | nil => left; rfl
  | cons wh t ih =>
      rcases ih (wake_step ls wh) with h | h
      · rcases wake_step_rc_cases ls wh with h2 | h2
        · left
          simp only [List.foldl_cons]
          rw [h, h2]
        · right
          refine ⟨by simp only [List.foldl_cons]; rw [h, h2.1],
                  wh, List.mem_cons_self _ _, h2.2⟩
      · right
        obtain ⟨hrc, w, hw, hrest⟩ := h
        exact ⟨by simpa using hrc, w, List.mem_cons_of_mem _ hw, hrest⟩

lemma foldl_wake_rc_two (ws : List Wake) (ls : loop_state) (h : ls.rc = 2) :
    (ws.foldl wake_step ls).rc = 2 := by
  induction ws generalizing ls with
  | nil => exact h
  | cons w t ih =>
      simp only [List.foldl_cons]
      exact ih _ (wake_step_rc_two ls w h)

lemma wake_step_ready_run (ls : loop_state) (evs : List Event)
    (h : ls.exit_loop = false) :
    wake_step ls (Wake.ready evs) = evs.foldl handle_event ls := by
  unfold wake_step
  rw [h]
  simp

lemma foldl_wake_netdown (ws : List Wake) (ls : loop_state)
    (hexit : (ws.foldl wake_step ls).exit_loop = false)
    (h : ∃ w ∈ ws, ∃ evs, w = Wake.ready evs ∧ Event.sockErr true ∈ evs) :
    (ws.foldl wake_step ls).rc = 2 := by
  induction ws generalizing ls with
  | nil => simp at h
  | cons wh t ih =>
      obtain ⟨w, hw, evs, hwe, hmem⟩ := h
      rcases List.mem_cons.mp hw with he | ht
      · have hls : ls.exit_loop = false := by
          by_contra hc
          have : ls.exit_loop = true := by
            cases hx : ls.exit_loop
            · exact absurd hx hc
            · rfl
          have := foldl_wake_exit_mono t (wake_step ls wh)
            (wake_step_exit_mono ls wh this)
          simp only [List.foldl_cons] at hexit
          rw [hexit] at this
          exact Bool.false_ne_true this
        have hrc2 : (wake_step ls wh).rc = 2 := by
          unfold wake_step
          rw [hls]
          simp only [Bool.false_eq_true, if_false]
          rw [← he, hwe]
          exact foldl_handle_netdown evs ls hmem
        simp only [List.foldl_cons]
        exact foldl_wake_rc_two t _ hrc2
      · simp only [List.foldl_cons] at hexit ⊢
        exact ih _ hexit ⟨w, ht, evs, hwe, hmem⟩

/-- Claim C2: the event loop returns the base exit code from `finish`
combined by bitwise OR with the accumulated receive-failure code and with
1 if and only if the broadcast-transmissions counter equals the
received-responses counter at loop exit, the both-zero case included.
The receive-failure code is 0 or 2; it is 2 only when a receive attempt
failed with a network-down error, and it is 2 in the final state whenever
the running loop processed such a failure — a wake the loop reaches
before `exit_loop` is set — no matter how or whether the loop exits
afterwards. -/
theorem event_loop_exit_code_combination (ctl : run_state)
    (firstSendOk : Bool) (wakes : List Wake) :
    (event_loop_rc ctl firstSendOk wakes =
      (finish (event_loop_final ctl firstSendOk wakes).ctl |||
        (event_loop_final ctl firstSendOk wakes).rc |||
        (if (event_loop_final ctl firstSendOk wakes).ctl.brd_sent =
              (event_loop_final ctl firstSendOk wakes).ctl.received
         then 1 else 0))) ∧
    ((event_loop_final ctl firstSendOk wakes).rc = 0 ∨
      (event_loop_final ctl firstSendOk wakes).rc = 2) ∧
    ((event_loop_final ctl firstSendOk wakes).rc = 2 →
      ∃ w ∈ wakes, ∃ evs, w = Wake.ready evs ∧ Event.sockErr true ∈ evs) ∧
    (∀ ws1 evs ws2, wakes = ws1 ++ Wake.ready evs :: ws2 →
      (ws1.foldl wake_step (event_loop_start ctl firstSendOk)).exit_loop =
        false →
      Event.sockErr true ∈ evs →
      (event_loop_final ctl firstSendOk wakes).rc = 2) := by
  have hstart : (event_loop_start ctl firstSendOk).rc = 0 := rfl
  have hcases := foldl_wake_rc_cases wakes (event_loop_start ctl firstSendOk)
  rw [hstart] at hcases
  refine ⟨?_, ?_, ?_, ?_⟩
  · simp only [event_loop_rc, ne_eq, not_not]
    rw [Nat.lor_comm ((event_loop_final ctl firstSendOk wakes).rc)
          (finish (event_loop_final ctl firstSendOk wakes).ctl)]
  · rcases hcases with h | h
    · left; exact h
    · right; exact h.1
  · intro h2
    rcases hcases with h | h
    · rw [event_loop_final] at h2
      rw [h2] at h
      omega
    · exact h.2
  · intro ws1 evs ws2 hsplit hrun hmem
    rw [event_loop_final, hsplit, List.foldl_append]
    simp only [List.foldl_cons]
    apply foldl_wake_rc_two
    rw [wake_step_ready_run _ _ hrun]
    exact foldl_handle_netdown evs _ hmem

/-- Witness for C2: a run whose first wake is a network-down receive
failure and whose second wake is a terminating signal — so the loop does
exit and return — ends with `rc = 2`, and a failure implies one is in the
run. -/
theorem event_loop_exit_code_combination_witness :
    (event_loop_final exCtl false
      [Wake.ready [Event.sockErr true],
       Wake.ready [Event.signal true]]).rc = 2 ∧
    (event_loop_final exCtl false
      [Wake.ready [Event.sockErr true],
       Wake.ready [Event.signal true]]).exit_loop = true ∧
    (∃ w ∈ [Wake.ready [Event.sockErr true], Wake.ready [Event.signal true]],
        ∃ evs, w = Wake.ready evs ∧ Event.sockErr true ∈ evs) :=
  ⟨(event_loop_exit_code_combination exCtl false
      [Wake.ready [Event.sockErr true], Wake.ready [Event.signal true]]).2.2.2
      [] [Event.sockErr true] [Wake.ready [Event.signal true]]
      rfl (by decide) (by decide),
   by decide,
   (event_loop_exit_code_combination exCtl false
      [Wake.ready [Event.sockErr true], Wake.ready [Event.signal true]]).2.2.1
      (by decide)⟩

end Arping
